import Mathlib

/-!
# Verification of the client-side entity cache layer of fullstack-blog-redux

Shallow embedding of the three Redux slices (`blogSlice.ts`, `commentSlice.ts`,
`authSlice.ts`): the state records, the reducer of each slice (one Lean
function per slice, matching on the dispatched action), and the async thunks
(modelled as functions from the gateway's response to the thunk outcome,
recording whether the gateway was invoked).  Machine numbers are `Int`
(JavaScript numbers under the operations used here: `+= 1`, `-= 1`,
comparisons), ids and messages are `String`, nullable fields are `Option`.
-/

/-- A blog row as defined by the `Blog` interface (`lib/supabase`):
id, user_id, title, content, image_url (nullable), created_at, updated_at. -/
structure Blog where
  id : String
  user_id : String
  title : String
  content : String
  image_url : Option String
  created_at : String
  updated_at : String
deriving Repr, DecidableEq

/-- A comment row as defined by the `Comment` interface:
id, blog_id, user_id, content, file_url (nullable), timestamps. -/
structure Comment where
  id : String
  blog_id : String
  user_id : String
  content : String
  file_url : Option String
  created_at : String
  updated_at : String
deriving Repr, DecidableEq

/-- The `pagination` sub-record of `BlogState`.  `total` is a JavaScript
number mutated by `+= 1` / `-= 1`, so it is embedded as `Int`. -/
structure Pagination where
  page : Int
  limit : Int
  total : Int
deriving Repr, DecidableEq

/-- `BlogState` from `blogSlice.ts`. -/
structure BlogState where
  blogs : List Blog
  currentBlog : Option Blog
  pagination : Pagination
  loading : Bool
  error : Option String
deriving Repr, DecidableEq

/-- `initialState` of `blogSlice.ts`. -/
def initialBlogState : BlogState :=
  { blogs := []
    currentBlog := none
    pagination := { page := 1, limit := 5, total := 0 }
    loading := false
    error := none }

/-- `CommentState` from `commentSlice.ts`. -/
structure CommentState where
  comments : List Comment
  loading : Bool
  error : Option String
deriving Repr, DecidableEq

/-- `initialState` of `commentSlice.ts`. -/
def initialCommentState : CommentState :=
  { comments := [], loading := false, error := none }

/-- The `User` identity held by the auth slice (fields actually read by the
core: `id`; `email` kept for the identity shape). -/
structure User where
  id : String
  email : String
deriving Repr, DecidableEq

/-- The raw Supabase `Session`: opaque to the core, passed through, never
parsed.  Embedded as an opaque token wrapper. -/
structure Session where
  access_token : String
deriving Repr, DecidableEq

/-- `AuthState` from `authSlice.ts`. -/
structure AuthState where
  user : Option User
  session : Option Session
  isAuthenticated : Bool
  loading : Bool
  error : Option String
deriving Repr, DecidableEq

/-- `initialState` of `authSlice.ts`. -/
def initialAuthState : AuthState :=
  { user := none, session := none, isAuthenticated := false
    loading := false, error := none }

/-- Embedding of `index = arr.findIndex(p); if (index !== -1) arr[index] = y`:
replace the first element satisfying `p` with `y`, leave the list unchanged
when no element matches (used by `updateBlog.fulfilled` and
`updateComment.fulfilled`). -/
def setFirstMatch (p : α → Bool) (y : α) : List α → List α
  | [] => []
  | x :: xs => if p x then y :: xs else x :: setFirstMatch p y xs

/-- Every Redux action the blog slice reacts to: the three plain reducers
and the pending/fulfilled/rejected actions of its five thunks.  Fulfilled
payloads carry what the thunk returned; rejected payloads carry the
`rejectWithValue` message. -/
inductive BlogAction where
  | setPage (p : Int)
  | clearCurrentBlog
  | clearBlogError
  | fetchBlogsPending
  | fetchBlogsFulfilled (blogs : List Blog) (total : Nat)
  | fetchBlogsRejected (msg : String)
  | fetchBlogByIdPending
  | fetchBlogByIdFulfilled (b : Blog)
  | fetchBlogByIdRejected (msg : String)
  | createBlogPending
  | createBlogFulfilled (b : Blog)
  | createBlogRejected (msg : String)
  | updateBlogPending
  | updateBlogFulfilled (b : Blog)
  | updateBlogRejected (msg : String)
  | deleteBlogPending
  | deleteBlogFulfilled (id : String)
  | deleteBlogRejected (msg : String)
deriving Repr, DecidableEq

/-- The blog slice reducer: direct transcription of the `reducers` and
`extraReducers` of `blogSlice.ts`. -/
def blogReducer (s : BlogState) (a : BlogAction) : BlogState :=
  match a with
  | .setPage p => { s with pagination := { s.pagination with page := p } }
  | .clearCurrentBlog => { s with currentBlog := none }
  | .clearBlogError => { s with error := none }
  | .fetchBlogsPending => { s with loading := true, error := none }
  | .fetchBlogsFulfilled blogs total =>
      { s with loading := false, blogs := blogs
               pagination := { s.pagination with total := (total : Int) } }
  | .fetchBlogsRejected m => { s with loading := false, error := some m }
  | .fetchBlogByIdPending => { s with loading := true, error := none }
  | .fetchBlogByIdFulfilled b => { s with loading := false, currentBlog := some b }
  | .fetchBlogByIdRejected m => { s with loading := false, error := some m }
  | .createBlogPending => { s with loading := true, error := none }
  | .createBlogFulfilled b =>
      { s with loading := false, blogs := b :: s.blogs
               pagination := { s.pagination with total := s.pagination.total + 1 } }
  | .createBlogRejected m => { s with loading := false, error := some m }
  | .updateBlogPending => { s with loading := true, error := none }
  | .updateBlogFulfilled b =>
      { s with loading := false
               blogs := setFirstMatch (fun x => x.id == b.id) b s.blogs
               currentBlog :=
                 match s.currentBlog with
                 | some cb => if cb.id == b.id then some b else some cb
                 | none => none }
  | .updateBlogRejected m => { s with loading := false, error := some m }
  | .deleteBlogPending => { s with loading := true, error := none }
  | .deleteBlogFulfilled id =>
      { s with loading := false
               blogs := s.blogs.filter (fun b => !(b.id == id))
               pagination := { s.pagination with total := s.pagination.total - 1 }
               currentBlog :=
                 match s.currentBlog with
                 | some cb => if cb.id == id then none else some cb
                 | none => none }
  | .deleteBlogRejected m => { s with loading := false, error := some m }

/-- Every Redux action the comment slice reacts to. -/
inductive CommentAction where
  | clearComments
  | clearCommentError
  | fetchCommentsPending
  | fetchCommentsFulfilled (cs : List Comment)
  | fetchCommentsRejected (msg : String)
  | createCommentPending
  | createCommentFulfilled (c : Comment)
  | createCommentRejected (msg : String)
  | updateCommentPending
  | updateCommentFulfilled (c : Comment)
  | updateCommentRejected (msg : String)
  | deleteCommentPending
  | deleteCommentFulfilled (id : String)
  | deleteCommentRejected (msg : String)
deriving Repr, DecidableEq

/-- The comment slice reducer: direct transcription of `commentSlice.ts`.
Note that `clearComments` only assigns `state.comments = []`. -/
def commentReducer (s : CommentState) (a : CommentAction) : CommentState :=
  match a with
  | .clearComments => { s with comments := [] }
  | .clearCommentError => { s with error := none }
  | .fetchCommentsPending => { s with loading := true, error := none }
  | .fetchCommentsFulfilled cs => { s with loading := false, comments := cs }
  | .fetchCommentsRejected m => { s with loading := false, error := some m }
  | .createCommentPending => { s with loading := true, error := none }
  | .createCommentFulfilled c => { s with loading := false, comments := c :: s.comments }
  | .createCommentRejected m => { s with loading := false, error := some m }
  | .updateCommentPending => { s with loading := true, error := none }
  | .updateCommentFulfilled c =>
      { s with loading := false
               comments := setFirstMatch (fun x => x.id == c.id) c s.comments }
  | .updateCommentRejected m => { s with loading := false, error := some m }
  | .deleteCommentPending => { s with loading := true, error := none }
  | .deleteCommentFulfilled id =>
      { s with loading := false
               comments := s.comments.filter (fun c => !(c.id == id)) }
  | .deleteCommentRejected m => { s with loading := false, error := some m }

/-- Every Redux action dispatched at the auth slice.  `createAsyncThunk`
always dispatches pending/fulfilled/rejected; the slice handles no
`checkSession.pending` or `checkSession.rejected` case, so those actions
leave the state unchanged (the Redux default), which the reducer below
reproduces. -/
inductive AuthAction where
  | clearAuthError
  | registerPending
  | registerFulfilled (u : Option User) (ss : Option Session)
  | registerRejected (msg : String)
  | loginPending
  | loginFulfilled (u : Option User) (ss : Option Session)
  | loginRejected (msg : String)
  | logoutPending
  | logoutFulfilled
  | logoutRejected (msg : String)
  | checkSessionPending
  | checkSessionFulfilled (u : Option User) (ss : Option Session)
  | checkSessionRejected (msg : String)
deriving Repr, DecidableEq

/-- The auth slice reducer: direct transcription of `authSlice.ts`.
`logoutUser.pending` sets only `loading` (it does not clear `error`);
`checkSession` has only a `fulfilled` case, which does not touch
`loading`/`error`; `!!session` is embedded as `Option.isSome`. -/
def authReducer (s : AuthState) (a : AuthAction) : AuthState :=
  match a with
  | .clearAuthError => { s with error := none }
  | .registerPending => { s with loading := true, error := none }
  | .registerFulfilled u ss =>
      { s with loading := false, user := u, session := ss
               isAuthenticated := ss.isSome }
  | .registerRejected m => { s with loading := false, error := some m }
  | .loginPending => { s with loading := true, error := none }
  | .loginFulfilled u ss =>
      { s with loading := false, user := u, session := ss
               isAuthenticated := ss.isSome }
  | .loginRejected m => { s with loading := false, error := some m }
  | .logoutPending => { s with loading := true }
  | .logoutFulfilled =>
      { s with loading := false, user := none, session := none
               isAuthenticated := false }
  | .logoutRejected m => { s with loading := false, error := some m }
  | .checkSessionPending => s
  | .checkSessionFulfilled u ss =>
      { s with user := u, session := ss, isAuthenticated := ss.isSome }
  | .checkSessionRejected _ => s

/-- States of the blog cache reachable from `initialState` by dispatching
any sequence of actions. -/
inductive BlogReachable : BlogState → Prop where
  | init : BlogReachable initialBlogState
  | step {s : BlogState} (a : BlogAction) :
      BlogReachable s → BlogReachable (blogReducer s a)

/-- States of the comment cache reachable from `initialState`. -/
inductive CommentReachable : CommentState → Prop where
  | init : CommentReachable initialCommentState
  | step {s : CommentState} (a : CommentAction) :
      CommentReachable s → CommentReachable (commentReducer s a)

/-- States of the auth store reachable from `initialState`. -/
inductive AuthReachable : AuthState → Prop where
  | init : AuthReachable initialAuthState
  | step {s : AuthState} (a : AuthAction) :
      AuthReachable s → AuthReachable (authReducer s a)

/-- Outcome of running a thunk body: whether the remote gateway was invoked,
and the settled result (`ok` payload on fulfilment, `rejectWithValue`
message on rejection). -/
structure ThunkResult (α : Type) where
  gatewayCalled : Bool
  result : Except String α
deriving Repr

/-- `createBlog` thunk body: reads `state.auth.user?.id`; when absent it
throws `'User not authenticated'` before any gateway call; otherwise it
issues the insert, whose response (`gw`, with the gateway's error message
on failure) it settles with via `rejectWithValue(error.message)`. -/
def createBlogThunk (authUser : Option String) (gw : Except String Blog) :
    ThunkResult Blog :=
  match authUser with
  | none => ⟨false, .error "User not authenticated"⟩
  | some _ => ⟨true, gw⟩

/-- `updateBlog` thunk body: performs no authentication check; it always
issues the gateway update and settles with its response. -/
def updateBlogThunk (_authUser : Option String) (gw : Except String Blog) :
    ThunkResult Blog :=
  ⟨true, gw⟩

/-- `deleteBlog` thunk body: no authentication check; issues the gateway
delete and on success fulfils with the deleted id. -/
def deleteBlogThunk (_authUser : Option String) (id : String)
    (gw : Except String Unit) : ThunkResult String :=
  match gw with
  | .ok _ => ⟨true, .ok id⟩
  | .error m => ⟨true, .error m⟩

/-- `fetchBlogs` thunk body.  The count query's response is destructured as
`{ count }` (its error field is ignored; a failed count fetch yields a null
count) and defaulted with `count || 0`; then the range query runs: only its
error is thrown.  `countRes = none` models a failed/null count fetch;
`listRes = .ok none` models a null `data` (defaulted with `data || []`). -/
def fetchBlogsThunk (countRes : Option Nat)
    (listRes : Except String (Option (List Blog))) :
    ThunkResult (List Blog × Nat) :=
  match listRes with
  | .error m => ⟨true, .error m⟩
  | .ok data => ⟨true, .ok (data.getD [], countRes.getD 0)⟩

/-- `createComment` thunk body: same `state.auth.user?.id` guard as
`createBlog`, throwing `'User not authenticated'` with no gateway call. -/
def createCommentThunk (authUser : Option String) (gw : Except String Comment) :
    ThunkResult Comment :=
  match authUser with
  | none => ⟨false, .error "User not authenticated"⟩
  | some _ => ⟨true, gw⟩

/-- `updateComment` thunk body: no authentication check. -/
def updateCommentThunk (_authUser : Option String) (gw : Except String Comment) :
    ThunkResult Comment :=
  ⟨true, gw⟩

/-- `deleteComment` thunk body: no authentication check; fulfils with the id. -/
def deleteCommentThunk (_authUser : Option String) (id : String)
    (gw : Except String Unit) : ThunkResult String :=
  match gw with
  | .ok _ => ⟨true, .ok id⟩
  | .error m => ⟨true, .error m⟩

/-- A concrete blog row used in witnesses and counterexamples. -/
def blogA : Blog :=
  { id := "b1", user_id := "u1", title := "Hello", content := "World"
    image_url := none, created_at := "2024-01-01", updated_at := "2024-01-01" }

/-- A second concrete blog row with a different id. -/
def blogB : Blog :=
  { id := "b2", user_id := "u1", title := "Second", content := "Post"
    image_url := none, created_at := "2024-01-02", updated_at := "2024-01-02" }

/-- A concrete comment row used in witnesses and counterexamples. -/
def commentA : Comment :=
  { id := "c1", blog_id := "b1", user_id := "u1", content := "Nice"
    file_url := none, created_at := "2024-01-03", updated_at := "2024-01-03" }

/-- A concrete user identity. -/
def userA : User := { id := "u1", email := "a@example.com" }

/-- If no element of `l` satisfies `p`, `setFirstMatch p y` leaves `l`
unchanged (the `findIndex === -1` no-op branch). -/
theorem setFirstMatch_eq_self {p : α → Bool} {y : α} {l : List α}
    (h : ∀ x ∈ l, p x = false) : setFirstMatch p y l = l := by
  induction l with
  | nil => rfl
  | cons x xs ih =>
      have hx : p x = false := h x (List.mem_cons_self x xs)
      simp [setFirstMatch, hx]
      exact ih fun z hz => h z (List.mem_cons_of_mem x hz)

/-- If every element of `l` satisfies `p`, filtering by `p` keeps `l`. -/
theorem filter_eq_self_of_all {p : α → Bool} {l : List α}
    (h : ∀ x ∈ l, p x = true) : l.filter p = l :=
  List.filter_eq_self.mpr h

/-- Blog state with one cached post (`blogB`) and `blogA` focused, used as a
concrete input in witnesses. -/
def blogStateFocusedA : BlogState :=
  { initialBlogState with blogs := [blogB], currentBlog := some blogA }

/-- C1 counterexample: `updateBlog` dispatched while the Session Store holds
no authenticated identity still invokes the gateway, and with a succeeding
gateway it resolves fulfilled — not with an AuthorizationError. -/
theorem c1_counterexample :
    (updateBlogThunk none (.ok blogA)).gatewayCalled = true
    ∧ (updateBlogThunk none (.ok blogA)).result = .ok blogA :=
  ⟨rfl, rfl⟩

/-- C1 (amended): only the Create operations are authentication-gated.
`createBlog`/`createComment` with no authenticated identity never invoke the
gateway and resolve with the local error `"User not authenticated"`;
`updateBlog`, `deleteBlog`, `updateComment` and `deleteComment` perform no
authentication check and always invoke the gateway, whatever the session
state. -/
theorem c1_only_creates_are_auth_gated :
    ∀ (gwB : Except String Blog) (gwC : Except String Comment)
      (gwU : Except String Unit) (au : Option String) (id : String),
      createBlogThunk none gwB = ⟨false, .error "User not authenticated"⟩
      ∧ createCommentThunk none gwC = ⟨false, .error "User not authenticated"⟩
      ∧ (updateBlogThunk au gwB).gatewayCalled = true
      ∧ (deleteBlogThunk au id gwU).gatewayCalled = true
      ∧ (updateCommentThunk au gwC).gatewayCalled = true
      ∧ (deleteCommentThunk au id gwU).gatewayCalled = true := by
  intro gwB gwC gwU au id
  refine ⟨rfl, rfl, rfl, ?_, rfl, ?_⟩
  · cases gwU <;> rfl
  · cases gwU <;> rfl

/-- C2: on `deleteBlog.fulfilled id`, every post whose id equals the deleted
id is gone from the window, the total count drops by exactly 1 whether or not
the id was present (in particular the window is untouched when it was
absent), and the focused-post slot is cleared when it held the deleted id. -/
theorem c2_delete_reconciliation (s : BlogState) (id : String) :
    (∀ b ∈ (blogReducer s (.deleteBlogFulfilled id)).blogs, b.id ≠ id)
    ∧ (blogReducer s (.deleteBlogFulfilled id)).pagination.total
        = s.pagination.total - 1
    ∧ ((∀ b ∈ s.blogs, b.id ≠ id) →
        (blogReducer s (.deleteBlogFulfilled id)).blogs = s.blogs)
    ∧ (∀ cb, s.currentBlog = some cb → cb.id = id →
        (blogReducer s (.deleteBlogFulfilled id)).currentBlog = none) := by
  refine ⟨?_, rfl, ?_, ?_⟩
  · intro b hb
    simp only [blogReducer, List.mem_filter, Bool.not_eq_eq_eq_not,
      Bool.not_true, beq_eq_false_iff_ne, ne_eq] at hb
    exact hb.2
  · intro h
    show s.blogs.filter (fun b => !(b.id == id)) = s.blogs
    exact filter_eq_self_of_all fun x hx => by
      simp [h x hx]
  · intro cb hcb hid
    show (match s.currentBlog with
          | some c => if c.id == id then none else some c
          | none => none) = none
    rw [hcb]
    simp [hid]

/-- Witness for C2 at a concrete state: deleting `"b1"` (absent from the
window `[blogB]`, focused) leaves the window unchanged and clears the
focused slot. -/
theorem c2_delete_reconciliation_witness :
    (blogReducer blogStateFocusedA (.deleteBlogFulfilled "b1")).blogs
        = blogStateFocusedA.blogs
    ∧ (blogReducer blogStateFocusedA (.deleteBlogFulfilled "b1")).currentBlog
        = none :=
  ⟨(c2_delete_reconciliation blogStateFocusedA "b1").2.2.1 (by decide),
   (c2_delete_reconciliation blogStateFocusedA "b1").2.2.2 blogA rfl rfl⟩

/-- C4 counterexample: a reachable Post Cache state with a negative total —
from the initial state (total 0), a successful delete of any id drives the
total to -1, since `deleteBlog.fulfilled` decrements unconditionally. -/
theorem c4_counterexample :
    BlogReachable (blogReducer (blogReducer initialBlogState .deleteBlogPending)
      (.deleteBlogFulfilled "x"))
    ∧ (blogReducer (blogReducer initialBlogState .deleteBlogPending)
        (.deleteBlogFulfilled "x")).pagination.total < 0 :=
  ⟨BlogReachable.step _ (BlogReachable.step _ BlogReachable.init), by decide⟩

/-- C4 (amended): every operation other than a successful Delete preserves
non-negativity of the total count (a successful list fetch even forces it
≥ 0); only `deleteBlog.fulfilled`, which decrements unconditionally, can
drive the total below zero. -/
theorem c4_total_nonneg_without_delete (s : BlogState) (a : BlogAction)
    (h : 0 ≤ s.pagination.total)
    (hna : ∀ id, a ≠ .deleteBlogFulfilled id) :
    0 ≤ (blogReducer s a).pagination.total := by
  cases a <;> first
    | exact absurd rfl (hna _)
    | (simp only [blogReducer]; omega)

/-- Witness for C4 (amended) at a concrete input: starting a create from the
initial state keeps the total non-negative. -/
theorem c4_total_nonneg_without_delete_witness :
    0 ≤ (blogReducer initialBlogState .createBlogPending).pagination.total :=
  c4_total_nonneg_without_delete initialBlogState .createBlogPending
    (by decide) (fun id h => BlogAction.noConfusion h)

/-- C5: on gateway failure every write thunk rejects with the gateway's
message verbatim, and every write's rejected reducer stores exactly that
message as the error, clears loading, and leaves the window, focused post,
pagination and comment list unmodified (full record equality). -/
theorem c5_gateway_failure_verbatim_frame :
    ∀ (s : BlogState) (cs : CommentState) (m uid id : String),
      (createBlogThunk (some uid) (.error m)).result = .error m
      ∧ (updateBlogThunk (some uid) (.error m)).result = .error m
      ∧ (deleteBlogThunk (some uid) id (.error m)).result = .error m
      ∧ (createCommentThunk (some uid) (.error m)).result = .error m
      ∧ (updateCommentThunk (some uid) (.error m)).result = .error m
      ∧ (deleteCommentThunk (some uid) id (.error m)).result = .error m
      ∧ blogReducer s (.createBlogRejected m)
          = { s with loading := false, error := some m }
      ∧ blogReducer s (.updateBlogRejected m)
          = { s with loading := false, error := some m }
      ∧ blogReducer s (.deleteBlogRejected m)
          = { s with loading := false, error := some m }
      ∧ commentReducer cs (.createCommentRejected m)
          = { cs with loading := false, error := some m }
      ∧ commentReducer cs (.updateCommentRejected m)
          = { cs with loading := false, error := some m }
      ∧ commentReducer cs (.deleteCommentRejected m)
          = { cs with loading := false, error := some m } := by
  intro s cs m uid id
  exact ⟨rfl, rfl, rfl, rfl, rfl, rfl, rfl, rfl, rfl, rfl, rfl, rfl⟩

/-- C6: on `createBlog.fulfilled`, the window grows by exactly one, the
created post sits at index 0, and the total count grows by exactly one,
for every prior window. -/
theorem c6_create_prepends_and_counts (s : BlogState) (b : Blog) :
    (blogReducer s (.createBlogFulfilled b)).blogs.length = s.blogs.length + 1
    ∧ (blogReducer s (.createBlogFulfilled b)).blogs.head? = some b
    ∧ (blogReducer s (.createBlogFulfilled b)).pagination.total
        = s.pagination.total + 1 :=
  ⟨rfl, rfl, rfl⟩

/-- Auth state reached by a rejected register: its error field holds the
gateway message `"boom"`. -/
def authStateWithError : AuthState :=
  authReducer (authReducer initialAuthState .registerPending)
    (.registerRejected "boom")

/-- C3 counterexample: at a reachable Session Store state whose error field
is `"boom"`, dispatching `logoutUser.pending` (starting the logout
operation) sets loading but does NOT clear the prior error, so the claim
that starting every operation clears the prior error fails. -/
theorem c3_counterexample :
    AuthReachable authStateWithError
    ∧ authStateWithError.error = some "boom"
    ∧ (authReducer authStateWithError .logoutPending).loading = true
    ∧ (authReducer authStateWithError .logoutPending).error = some "boom" :=
  ⟨AuthReachable.step _ (AuthReachable.step _ AuthReachable.init),
   rfl, rfl, rfl⟩

/-- C3 (amended): every Post Cache and Comment Cache operation, and
register/login in the Session Store, obey the status discipline (pending
sets loading and clears the prior error; every completion clears loading;
failures store the message).  The exceptions are exactly:
`logoutUser.pending` sets loading without clearing the prior error, and
`checkSession` — whose pending and rejected actions are unhandled (state
unchanged, so loading is never set and failures are never recorded) and
whose fulfilled case leaves loading and error untouched. -/
theorem c3_status_discipline :
    ∀ (s : BlogState) (cs : CommentState) (as : AuthState) (m : String)
      (bs : List Blog) (n : Nat) (b : Blog) (cl : List Comment) (c : Comment)
      (id : String) (u : Option User) (ss : Option Session),
      ((blogReducer s .fetchBlogsPending).loading = true
        ∧ (blogReducer s .fetchBlogsPending).error = none)
      ∧ ((blogReducer s .fetchBlogByIdPending).loading = true
        ∧ (blogReducer s .fetchBlogByIdPending).error = none)
      ∧ ((blogReducer s .createBlogPending).loading = true
        ∧ (blogReducer s .createBlogPending).error = none)
      ∧ ((blogReducer s .updateBlogPending).loading = true
        ∧ (blogReducer s .updateBlogPending).error = none)
      ∧ ((blogReducer s .deleteBlogPending).loading = true
        ∧ (blogReducer s .deleteBlogPending).error = none)
      ∧ (blogReducer s (.fetchBlogsFulfilled bs n)).loading = false
      ∧ (blogReducer s (.fetchBlogByIdFulfilled b)).loading = false
      ∧ (blogReducer s (.createBlogFulfilled b)).loading = false
      ∧ (blogReducer s (.updateBlogFulfilled b)).loading = false
      ∧ (blogReducer s (.deleteBlogFulfilled id)).loading = false
      ∧ ((blogReducer s (.fetchBlogsRejected m)).loading = false
        ∧ (blogReducer s (.fetchBlogsRejected m)).error = some m)
      ∧ ((blogReducer s (.fetchBlogByIdRejected m)).loading = false
        ∧ (blogReducer s (.fetchBlogByIdRejected m)).error = some m)
      ∧ ((blogReducer s (.createBlogRejected m)).loading = false
        ∧ (blogReducer s (.createBlogRejected m)).error = some m)
      ∧ ((blogReducer s (.updateBlogRejected m)).loading = false
        ∧ (blogReducer s (.updateBlogRejected m)).error = some m)
      ∧ ((blogReducer s (.deleteBlogRejected m)).loading = false
        ∧ (blogReducer s (.deleteBlogRejected m)).error = some m)
      ∧ ((commentReducer cs .fetchCommentsPending).loading = true
        ∧ (commentReducer cs .fetchCommentsPending).error = none)
      ∧ ((commentReducer cs .createCommentPending).loading = true
        ∧ (commentReducer cs .createCommentPending).error = none)
      ∧ ((commentReducer cs .updateCommentPending).loading = true
        ∧ (commentReducer cs .updateCommentPending).error = none)
      ∧ ((commentReducer cs .deleteCommentPending).loading = true
        ∧ (commentReducer cs .deleteCommentPending).error = none)
      ∧ (commentReducer cs (.fetchCommentsFulfilled cl)).loading = false
      ∧ (commentReducer cs (.createCommentFulfilled c)).loading = false
      ∧ (commentReducer cs (.updateCommentFulfilled c)).loading = false
      ∧ (commentReducer cs (.deleteCommentFulfilled id)).loading = false
      ∧ ((commentReducer cs (.fetchCommentsRejected m)).loading = false
        ∧ (commentReducer cs (.fetchCommentsRejected m)).error = some m)
      ∧ ((commentReducer cs (.createCommentRejected m)).loading = false
        ∧ (commentReducer cs (.createCommentRejected m)).error = some m)
      ∧ ((commentReducer cs (.updateCommentRejected m)).loading = false
        ∧ (commentReducer cs (.updateCommentRejected m)).error = some m)
      ∧ ((commentReducer cs (.deleteCommentRejected m)).loading = false
        ∧ (commentReducer cs (.deleteCommentRejected m)).error = some m)
      ∧ ((authReducer as .registerPending).loading = true
        ∧ (authReducer as .registerPending).error = none)
      ∧ ((authReducer as .loginPending).loading = true
        ∧ (authReducer as .loginPending).error = none)
      ∧ (authReducer as (.registerFulfilled u ss)).loading = false
      ∧ (authReducer as (.loginFulfilled u ss)).loading = false
      ∧ ((authReducer as (.registerRejected m)).loading = false
        ∧ (authReducer as (.registerRejected m)).error = some m)
      ∧ ((authReducer as (.loginRejected m)).loading = false
        ∧ (authReducer as (.loginRejected m)).error = some m)
      ∧ ((authReducer as .logoutPending).loading = true
        ∧ (authReducer as .logoutPending).error = as.error)
      ∧ (authReducer as .logoutFulfilled).loading = false
      ∧ ((authReducer as (.logoutRejected m)).loading = false
        ∧ (authReducer as (.logoutRejected m)).error = some m)
      ∧ authReducer as .checkSessionPending = as
      ∧ ((authReducer as (.checkSessionFulfilled u ss)).loading = as.loading
        ∧ (authReducer as (.checkSessionFulfilled u ss)).error = as.error)
      ∧ authReducer as (.checkSessionRejected m) = as := by
  intro s cs as m bs n b cl c id u ss
  and_intros <;> rfl

/-- C7: a failed (null) count fetch is treated as total 0 and the list call
still fulfils with the fetched slice; the call rejects exactly when the list
fetch fails, and then the rejected reducer only sets loading/error, leaving
the window, focused post and pagination untouched (record equality). -/
theorem c7_count_failure_nonfatal :
    ∀ (data : List Blog) (countRes : Option Nat) (s : BlogState) (m : String),
      (fetchBlogsThunk none (.ok (some data))).result = .ok (data, 0)
      ∧ (fetchBlogsThunk countRes (.ok (some data))).result
          = .ok (data, countRes.getD 0)
      ∧ (fetchBlogsThunk countRes (.error m)).result = .error m
      ∧ blogReducer s (.fetchBlogsRejected m)
          = { s with loading := false, error := some m } := by
  intro data countRes s m
  exact ⟨rfl, rfl, rfl, rfl⟩

/-- C8: a successful update of a post absent from the window leaves the
window identical (same length, same order, same items), while the
focused-post slot is replaced when its id matches the updated post's id. -/
theorem c8_update_absent_frame (s : BlogState) (b : Blog)
    (h : ∀ x ∈ s.blogs, x.id ≠ b.id) :
    (blogReducer s (.updateBlogFulfilled b)).blogs = s.blogs
    ∧ (∀ cb, s.currentBlog = some cb → cb.id = b.id →
        (blogReducer s (.updateBlogFulfilled b)).currentBlog = some b) := by
  constructor
  · show setFirstMatch (fun x => x.id == b.id) b s.blogs = s.blogs
    exact setFirstMatch_eq_self fun x hx => by
      simp [h x hx]
  · intro cb hcb hid
    show (match s.currentBlog with
          | some c => if c.id == b.id then some b else some c
          | none => none) = some b
    rw [hcb]
    simp [hid]

/-- The edited version of `blogA`: same id, new title. -/
def blogAEdited : Blog := { blogA with title := "Edited" }

/-- Witness for C8 at a concrete state: updating `"b1"` while the window is
`[blogB]` and `blogA` is focused keeps the window and swaps the focus. -/
theorem c8_update_absent_frame_witness :
    (blogReducer blogStateFocusedA (.updateBlogFulfilled blogAEdited)).blogs
        = blogStateFocusedA.blogs
    ∧ (blogReducer blogStateFocusedA
        (.updateBlogFulfilled blogAEdited)).currentBlog = some blogAEdited :=
  ⟨(c8_update_absent_frame blogStateFocusedA blogAEdited (by decide)).1,
   (c8_update_absent_frame blogStateFocusedA blogAEdited (by decide)).2
     blogA rfl rfl⟩

/-- Comment state with a fetch in flight (reached from the initial state by
`fetchComments.pending`). -/
def commentStateLoading : CommentState :=
  commentReducer initialCommentState .fetchCommentsPending

/-- C9 counterexample: from a reachable state with a fetch in flight,
`clearComments` empties the collection but leaves `loading = true` — the
cleared cache does NOT have "no pending loading flag". -/
theorem c9_counterexample :
    CommentReachable commentStateLoading
    ∧ (commentReducer commentStateLoading .clearComments).comments = []
    ∧ (commentReducer commentStateLoading .clearComments).loading = true :=
  ⟨CommentReachable.step _ CommentReachable.init, rfl, rfl⟩

/-- C9 (amended): for every prior Comment Cache state, `clearComments`
empties the comment collection and changes nothing else — loading and error
are left exactly as they were (so a loading flag set by an in-flight fetch
survives the clear). -/
theorem c9_clear_empties_only (s : CommentState) :
    commentReducer s .clearComments = { s with comments := [] } :=
  rfl

/-- C10: in every reachable Session Store state, `isAuthenticated` is true
exactly when the raw session is non-null; and a successful register whose
payload carries a user but a null session stores the non-null identity while
leaving `isAuthenticated` false. -/
theorem c10_auth_flag_iff_session :
    (∀ s, AuthReachable s → s.isAuthenticated = s.session.isSome)
    ∧ (∀ (s : AuthState) (u : User),
        (authReducer s (.registerFulfilled (some u) none)).user = some u
        ∧ (authReducer s (.registerFulfilled (some u) none)).isAuthenticated
            = false) := by
  constructor
  · intro s h
    induction h with
    | init => rfl
    | step a _ ih =>
        cases a <;> simp [authReducer] <;> exact ih
  · intro s u
    exact ⟨rfl, rfl⟩

/-- Witness for C10: the invariant applied at the initial state, and the
register-with-null-session conclusion at the concrete user `userA`. -/
theorem c10_auth_flag_iff_session_witness :
    initialAuthState.isAuthenticated = initialAuthState.session.isSome
    ∧ (authReducer initialAuthState
        (.registerFulfilled (some userA) none)).user = some userA
    ∧ (authReducer initialAuthState
        (.registerFulfilled (some userA) none)).isAuthenticated = false :=
  ⟨c10_auth_flag_iff_session.1 initialAuthState AuthReachable.init,
   (c10_auth_flag_iff_session.2 initialAuthState userA).1,
   (c10_auth_flag_iff_session.2 initialAuthState userA).2⟩
